import Mathlib

/-!
Verification of the internship recommender core (Django app `recommender`).

Python strings are modelled as `List Char` (`PyStr`), Python floats as `ℚ`.
The embedding model + FAISS index + persisted maps are modelled as an
`EngineState`: a deterministic search function from the synthesized query
text to the list of (similarity, position) pairs, plus the two lookup maps
(`index_to_id_map`, `all_internships_map`).  Fallible dictionary indexing
(Python `KeyError`) is modelled with `Except`.

Source files embedded: `recommender/engine.py` (`RecommendationEngine.
find_recommendations`) and `recommender/views.py` (`RecommendInternships.get`).
-/

/-- Python `str`, modelled as a list of characters. -/
abbrev PyStr := List Char

/-- ASCII lowercasing of one character, as Python `str.lower` acts on ASCII. -/
def py_lower_char (c : Char) : Char :=
  if 'A' ≤ c ∧ c ≤ 'Z' then Char.ofNat (c.toNat + 32) else c

/-- Python `str.lower()`. -/
def py_lower (s : PyStr) : PyStr := s.map py_lower_char

/-- Python whitespace for `str.strip()`. -/
def py_is_space (c : Char) : Bool :=
  c = ' ' ∨ c = '\t' ∨ c = '\n' ∨ c = '\r' ∨ c = '\x0b' ∨ c = '\x0c'

/-- Python `str.strip()`: drop whitespace from both ends. -/
def py_strip (s : PyStr) : PyStr :=
  ((s.dropWhile py_is_space).reverse.dropWhile py_is_space).reverse

/-- Python `str.split(',')`: split on every comma; the result is never empty
(`''.split(',') == ['']`). -/
def py_split_comma : PyStr → List PyStr
  | [] => [[]]
  | c :: rest =>
    let r := py_split_comma rest
    if c = ',' then [] :: r
    else
      match r with
      | [] => [[c]]
      | t :: ts => (c :: t) :: ts

/-- Python `needle in hay` on strings: substring containment. -/
def py_contains (hay needle : PyStr) : Bool := decide (needle <:+: hay)

/-- One row of `internships.csv` as loaded into `all_internships_map`
(`engine.py`, `__init__`): column names
`['id', 'Title', 'Locations', 'Skills', 'Description']`. -/
structure Internship where
  id : PyStr
  Title : PyStr
  Locations : PyStr
  Skills : PyStr
  Description : PyStr
deriving DecidableEq, Repr

/-- An element of `all_top_candidates` in `find_recommendations`:
the dict `{'final_score': ..., 'internship': ...}`. -/
structure ScoredCandidate where
  final_score : ℚ
  internship : Internship
deriving DecidableEq, Repr

/-- The loaded engine assets, as far as the query path observes them:
`search` is the composition of `model.encode`, `faiss.normalize_L2` and
`self.index.search` — a deterministic map from the synthesized student text
to the list of (similarity, index) pairs, with `-1` the FAISS sentinel for
"no hit"; `index_to_id_map` and `all_internships_map` are the two persisted
lookup tables. -/
structure EngineState where
  search : PyStr → List (ℚ × Int)
  index_to_id_map : Int → Option PyStr
  all_internships_map : PyStr → Option Internship

/-- `engine.py` lines 192–195: the rich semantic query text.  Python
`if interest:` is true exactly when `interest` is non-empty. -/
def student_text (skills interest : PyStr) : PyStr :=
  if interest ≠ [] then
    "A student with key skills in: ".data ++ skills
      ++ ". They are interested in an internship where they can ".data
      ++ interest ++ ".".data
  else
    "A student with key skills in: ".data ++ skills ++ ".".data

/-- `engine.py` line 206: `[s.strip().lower() for s in skills.split(',')]`. -/
def user_explicit_skills (skills : PyStr) : List PyStr :=
  (py_split_comma skills).map (fun s => py_lower (py_strip s))

/-- `engine.py` lines 218–225: count the user's skill tokens occurring as
substrings of the lowercased internship skills text, normalized by the
number of tokens (the guard `if user_explicit_skills else 0` is kept). -/
def normalized_boost (skills internship_skills : PyStr) : ℚ :=
  let internship_skills_text := py_lower internship_skills
  let user := user_explicit_skills skills
  let skill_boost_score : ℕ :=
    user.countP (fun skill => py_contains internship_skills_text skill)
  if user ≠ [] then (skill_boost_score : ℚ) / (user.length : ℚ) else 0

/-- `engine.py` line 229: `final_score = (0.7 * sem_score) + (0.3 * normalized_boost)`. -/
def final_score (sem_score : ℚ) (skills internship_skills : PyStr) : ℚ :=
  7/10 * sem_score + 3/10 * normalized_boost skills internship_skills

/-- `engine.py` lines 208–231: hydrate each searched position into a scored
candidate.  `-1` positions are skipped; a position missing from
`index_to_id_map`, or an identifier missing from `all_internships_map`,
raises `KeyError` — modelled as `Except.error`. -/
def build_candidates (st : EngineState) (skills : PyStr) :
    List (ℚ × Int) → Except PyStr (List ScoredCandidate)
  | [] => .ok []
  | (sem_score, idx) :: rest =>
    if idx = -1 then build_candidates st skills rest
    else
      match st.index_to_id_map idx with
      | none => .error "KeyError: index_to_id_map".data
      | some internship_id =>
        match st.all_internships_map internship_id with
        | some internship =>
          (build_candidates st skills rest).map
            (fun cands =>
              ⟨final_score sem_score skills internship.Skills, internship⟩ :: cands)
        | none => .error ("KeyError: ".data ++ internship_id)

/-- The comparison key of `engine.py` line 234:
`sort(key=lambda x: x['final_score'], reverse=True)` orders `a` before `b`
when `b`'s score is at most `a`'s. -/
def score_ge (a b : ScoredCandidate) : Prop := b.final_score ≤ a.final_score

instance : DecidableRel score_ge :=
  fun a b => inferInstanceAs (Decidable (b.final_score ≤ a.final_score))

instance : IsTotal ScoredCandidate score_ge :=
  ⟨fun a b => le_total b.final_score a.final_score⟩

instance : IsTrans ScoredCandidate score_ge :=
  ⟨fun _ _ _ h1 h2 => le_trans h2 h1⟩

/-- `engine.py` line 234: Python `list.sort` is a stable sort; the unique
stable descending sort is realized by insertion sort over `score_ge`. -/
def sort_by_final_score (l : List ScoredCandidate) : List ScoredCandidate :=
  l.insertionSort score_ge

/-- `engine.py` line 239: the location filter predicate
`rec['internship']['Locations'].lower().strip() == location.lower()`. -/
def location_matches (stored requested : PyStr) : Bool :=
  decide (py_strip (py_lower stored) = py_lower requested)

/-- `engine.py` lines 190–242: `RecommendationEngine.find_recommendations`.
Returns `(recommendations_in_location, all_top_candidates)`. -/
def find_recommendations (st : EngineState) (skills location interest : PyStr) :
    Except PyStr (List ScoredCandidate × List ScoredCandidate) :=
  (build_candidates st skills (st.search (student_text skills interest))).map
    (fun cands =>
      let all_top_candidates := sort_by_final_score cands
      let recommendations_in_location :=
        all_top_candidates.filter
          (fun c => location_matches c.internship.Locations location)
      (recommendations_in_location, all_top_candidates))

/-- `views.py` line 75. -/
def MINIMUM_SCORE_THRESHOLD : ℚ := 55/100

/-- `views.py` line 76. -/
def FALLBACK_COUNT : ℕ := 3

/-- `views.py` lines 78–92: threshold filtering and the three-tier
fallback selection, returning `(message, results)`. -/
def select_results (location : PyStr)
    (in_location_recs global_recs : List ScoredCandidate) :
    PyStr × List ScoredCandidate :=
  let good_in_location :=
    in_location_recs.filter (fun c => decide (MINIMUM_SCORE_THRESHOLD ≤ c.final_score))
  let good_global :=
    global_recs.filter (fun c => decide (MINIMUM_SCORE_THRESHOLD ≤ c.final_score))
  if good_in_location ≠ [] then
    ("Top matches in your preferred location: ".data ++ location,
     good_in_location.take 5)
  else if good_global ≠ [] then
    ("No ideal matches found in ".data ++ location
       ++ ". Here are the best matches from other locations:".data,
     good_global.take FALLBACK_COUNT)
  else
    ("No ideal matches were found anywhere. Here are the top 3 closest skill matches from all locations:".data,
     global_recs.take FALLBACK_COUNT)

/-- The outcome of `RecommendInternships.get` in `views.py`: a 400 response,
a propagated internal error (HTTP 500), or the `(message, recommendations)`
payload. -/
inductive Response where
  | bad_request (error : PyStr)
  | server_error (error : PyStr)
  | ok (message : PyStr) (recommendations : List ScoredCandidate)
deriving DecidableEq, Repr

/-- `views.py` line 62: `cache_key = f"rec_{skills}_{location}_{interest}"`. -/
def cache_key (skills location interest : PyStr) : PyStr :=
  "rec_".data ++ skills ++ "_".data ++ location ++ "_".data ++ interest

/-- `views.py` lines 52–103 (`RecommendInternships.get`), cache aside: the
empty-parameter guard, then the engine call, then the three-tier selection.
`request.query_params.get(..., '')` defaults a missing parameter to the
empty string, so "missing" and "empty" coincide here. -/
def recommend_internships (st : EngineState) (skills location interest : PyStr) :
    Response :=
  if skills = [] ∨ location = [] then
    .bad_request "Please provide both skills and location parameters.".data
  else
    match find_recommendations st skills location interest with
    | .error e => .server_error e
    | .ok (in_location_recs, global_recs) =>
      let p := select_results location in_location_recs global_recs
      .ok p.1 p.2

/-! ### Helper lemmas -/

/-- Python `split` never returns an empty list: `''.split(',') == ['']`. -/
theorem py_split_comma_ne_nil (s : PyStr) : py_split_comma s ≠ [] := by
  induction s with
  | nil => simp [py_split_comma]
  | cons c rest ih =>
    simp only [py_split_comma]
    split
    · simp
    · cases h : py_split_comma rest with
      | nil => simp
      | cons t ts => simp

/-- The user token list is never empty, so the `else 0` guard on the
normalization is dead code. -/
theorem user_explicit_skills_ne_nil (skills : PyStr) :
    user_explicit_skills skills ≠ [] := by
  simp [user_explicit_skills, py_split_comma_ne_nil]

theorem normalized_boost_nonneg (skills internship_skills : PyStr) :
    0 ≤ normalized_boost skills internship_skills := by
  unfold normalized_boost
  dsimp only
  split
  · positivity
  · exact le_refl 0

theorem normalized_boost_le_one (skills internship_skills : PyStr) :
    normalized_boost skills internship_skills ≤ 1 := by
  unfold normalized_boost
  dsimp only
  split
  · rename_i h
    have hlen : 0 < ((user_explicit_skills skills).length : ℚ) := by
      exact_mod_cast List.length_pos.mpr h
    rw [div_le_one hlen]
    exact_mod_cast List.countP_le_length _
  · exact zero_le_one

theorem normalized_boost_eq_zero (skills internship_skills : PyStr)
    (h : ∀ t ∈ user_explicit_skills skills, ¬ (t <:+: py_lower internship_skills)) :
    normalized_boost skills internship_skills = 0 := by
  unfold normalized_boost
  dsimp only
  have hc : (user_explicit_skills skills).countP
      (fun skill => py_contains (py_lower internship_skills) skill) = 0 := by
    rw [List.countP_eq_zero]
    intro a ha
    simpa [py_contains] using h a ha
  rw [hc]
  split <;> simp

theorem normalized_boost_empty_skills (internship_skills : PyStr) :
    normalized_boost [] internship_skills = 1 := by
  have huser : user_explicit_skills [] = [[]] := rfl
  have hpc : py_contains (py_lower internship_skills) [] = true := by
    simp only [py_contains, decide_eq_true_eq]
    exact ⟨[], py_lower internship_skills, by simp⟩
  unfold normalized_boost
  dsimp only
  rw [huser]
  simp [hpc]

/-- Stability of `orderedInsert` over `score_ge`: the sublist of entries at
any fixed score is unchanged except for the inserted element appearing
first when it carries that score. -/
theorem filter_score_orderedInsert (q : ℚ) (x : ScoredCandidate)
    (l : List ScoredCandidate) :
    (List.orderedInsert score_ge x l).filter (fun c => decide (c.final_score = q)) =
      if x.final_score = q then
        x :: l.filter (fun c => decide (c.final_score = q))
      else l.filter (fun c => decide (c.final_score = q)) := by
  induction l with
  | nil =>
    rw [List.orderedInsert_nil]
    by_cases hx : x.final_score = q <;> simp [hx, List.filter_cons]
  | cons y ys ih =>
    by_cases hr : score_ge x y
    · rw [List.orderedInsert, if_pos hr]
      by_cases hx : x.final_score = q <;> simp [hx, List.filter_cons]
    · rw [List.orderedInsert, if_neg hr]
      by_cases hy : y.final_score = q
      · by_cases hx : x.final_score = q
        · exact absurd (by rw [score_ge, hx, hy] : score_ge x y) hr
        · simp [List.filter_cons, hy, hx, ih]
      · by_cases hx : x.final_score = q <;> simp [List.filter_cons, hy, hx, ih]

/-- Stability of the final-score sort: for every score value, the entries
carrying that score appear in the sorted output in their original order. -/
theorem filter_score_sort (q : ℚ) (l : List ScoredCandidate) :
    (sort_by_final_score l).filter (fun c => decide (c.final_score = q)) =
      l.filter (fun c => decide (c.final_score = q)) := by
  induction l with
  | nil => rfl
  | cons x xs ih =>
    rw [sort_by_final_score, List.insertionSort]
    rw [show List.insertionSort score_ge xs = sort_by_final_score xs from rfl]
    rw [filter_score_orderedInsert]
    by_cases hx : x.final_score = q <;> simp [List.filter_cons, hx, ih]

/-- Mapping a function that reflects the order relation commutes with
`orderedInsert`. -/
theorem map_orderedInsert_of_iff {α β : Type} (r1 : α → α → Prop)
    (r2 : β → β → Prop) [DecidableRel r1] [DecidableRel r2] (f : α → β)
    (hr : ∀ a b, r2 (f a) (f b) ↔ r1 a b) (x : α) (l : List α) :
    (List.orderedInsert r1 x l).map f = List.orderedInsert r2 (f x) (l.map f) := by
  induction l with
  | nil => rfl
  | cons y ys ih =>
    by_cases h : r1 x y
    · rw [List.orderedInsert, if_pos h]
      dsimp only [List.map_cons]
      rw [List.orderedInsert, if_pos ((hr x y).mpr h)]
    · rw [List.orderedInsert, if_neg h]
      dsimp only [List.map_cons]
      rw [List.orderedInsert, if_neg (fun hc => h ((hr x y).mp hc)), ih]

/-- Mapping a function that reflects the order relation commutes with
`insertionSort`. -/
theorem map_insertionSort_of_iff {α β : Type} (r1 : α → α → Prop)
    (r2 : β → β → Prop) [DecidableRel r1] [DecidableRel r2] (f : α → β)
    (hr : ∀ a b, r2 (f a) (f b) ↔ r1 a b) (l : List α) :
    (List.insertionSort r1 l).map f = List.insertionSort r2 (l.map f) := by
  induction l with
  | nil => rfl
  | cons x xs ih =>
    rw [List.insertionSort, map_orderedInsert_of_iff r1 r2 f hr, ih,
      List.map_cons, List.insertionSort]

/-- A stale `index_to_id_map` entry whose identifier is missing from the
corpus makes the whole hydration loop raise, independently of where in the
search results the stale position sits. -/
theorem build_candidates_stale_error (st : EngineState) (skills : PyStr)
    (results : List (ℚ × Int)) (sem_score : ℚ) (idx : Int) (internship_id : PyStr)
    (hmem : (sem_score, idx) ∈ results) (hidx : idx ≠ -1)
    (hmap : st.index_to_id_map idx = some internship_id)
    (hcorp : st.all_internships_map internship_id = none) :
    ∃ e, build_candidates st skills results = .error e := by
  induction results with
  | nil => simp at hmem
  | cons hd tl ih =>
    obtain ⟨s0, i0⟩ := hd
    rcases List.mem_cons.mp hmem with heq | htl
    · obtain ⟨rfl, rfl⟩ := Prod.mk.injEq .. |>.mp heq
      rw [build_candidates, if_neg hidx, hmap]
      dsimp only
      rw [hcorp]
      exact ⟨_, rfl⟩
    · rw [build_candidates]
      by_cases h0 : i0 = -1
      · rw [if_pos h0]
        exact ih htl
      · rw [if_neg h0]
        cases hm : st.index_to_id_map i0 with
        | none => exact ⟨_, rfl⟩
        | some iid0 =>
          dsimp only
          cases hc : st.all_internships_map iid0 with
          | none => exact ⟨_, rfl⟩
          | some intern =>
            dsimp only
            obtain ⟨e, he⟩ := ih htl
            rw [he]
            exact ⟨e, rfl⟩

/-! ### Claim theorems -/

/-- Claim C2: for every semantic candidate the final score is
`0.7 * semantic_similarity + 0.3 * boost`, where the boost counts, over the
comma-split, trimmed, lowercased user skill tokens, those occurring as
substrings of the lowercased internship skills string, divided by the
number of user-provided skill tokens. -/
theorem C2_final_score_formula (sem_score : ℚ) (skills internship_skills : PyStr) :
    final_score sem_score skills internship_skills =
      7/10 * sem_score +
        3/10 *
          (((((py_split_comma skills).map (fun t => py_lower (py_strip t))).countP
              (fun t => decide (t <:+: py_lower internship_skills))) : ℚ) /
            ((((py_split_comma skills).map (fun t => py_lower (py_strip t))).length : ℚ))) := by
  rw [final_score]
  unfold normalized_boost
  dsimp only
  rw [if_pos (user_explicit_skills_ne_nil skills)]
  rfl

/-- Claim C6: the candidate list is sorted descending by `final_score`, it is
a permutation of the hydration-order input, and the sort is stable: for every
score value the candidates carrying it keep their original relative order. -/
theorem C6_sort_stable (l : List ScoredCandidate) :
    List.Sorted score_ge (sort_by_final_score l) ∧
    List.Perm (sort_by_final_score l) l ∧
    ∀ q : ℚ, (sort_by_final_score l).filter (fun c => decide (c.final_score = q)) =
      l.filter (fun c => decide (c.final_score = q)) :=
  ⟨List.sorted_insertionSort score_ge l, List.perm_insertionSort score_ge l,
   fun q => filter_score_sort q l⟩

/-- Claim C7: an identifier produced by the index-to-ID map for a searched
position but absent from the corpus store makes the query fail with an
error; the candidate is never silently dropped into an ok result. -/
theorem C7_stale_id_error (st : EngineState) (skills location interest : PyStr)
    (sem_score : ℚ) (idx : Int) (internship_id : PyStr)
    (hmem : (sem_score, idx) ∈ st.search (student_text skills interest))
    (hidx : idx ≠ -1)
    (hmap : st.index_to_id_map idx = some internship_id)
    (hcorp : st.all_internships_map internship_id = none) :
    ∃ e, find_recommendations st skills location interest = .error e := by
  obtain ⟨e, he⟩ := build_candidates_stale_error st skills
    (st.search (student_text skills interest)) sem_score idx internship_id
    hmem hidx hmap hcorp
  exact ⟨e, by rw [find_recommendations, he]; rfl⟩

/-- Claim C9 (counterexample): the cache key is the underscore-joined
concatenation of the three parameters, so two distinct
(skills, location, interest) tuples can share a cache key. -/
theorem C9_counterexample :
    cache_key "a".data "b_c".data "d".data = cache_key "a_b".data "c".data "d".data ∧
    ("a".data, "b_c".data, "d".data) ≠ (("a_b".data : PyStr), "c".data, "d".data) := by
  decide

/-- Claim C9 (amended): the query path is pure with respect to the
(skills, location, interest) tuple — identical tuples over the same engine
state give identical responses and identical cache keys — but the key does
not identify the tuple injectively. -/
theorem C9_amended_purity (st : EngineState) (s1 l1 i1 s2 l2 i2 : PyStr)
    (hs : s1 = s2) (hl : l1 = l2) (hi : i1 = i2) :
    recommend_internships st s1 l1 i1 = recommend_internships st s2 l2 i2 ∧
    cache_key s1 l1 i1 = cache_key s2 l2 i2 := by
  subst hs
  subst hl
  subst hi
  exact ⟨rfl, rfl⟩

/-- Claim C3 (counterexample): the location filter compares the trimmed,
lowercased stored location with the merely lowercased requested location, so
requested `" remote "` does not match stored `"remote"`, though `"Remote"`
and `"REMOTE"` do. -/
theorem C3_counterexample :
    location_matches "remote".data "Remote".data = true ∧
    location_matches "remote".data "REMOTE".data = true ∧
    location_matches "remote".data " remote ".data = false := by
  decide

/-- Claim C3 (amended): the filter is case-insensitive on both sides but
trims only the stored location: it holds exactly when the stored location,
lowercased then stripped, equals the lowercased requested location. -/
theorem C3_amended_location_filter :
    (∀ stored requested : PyStr,
        location_matches stored requested = true ↔
          py_strip (py_lower stored) = py_lower requested) ∧
    location_matches "remote".data "Remote".data = true ∧
    location_matches "remote".data "REMOTE".data = true ∧
    location_matches " remote ".data "REMOTE".data = true ∧
    location_matches "remote".data " remote ".data = false := by
  refine ⟨fun stored requested => ?_, by decide, by decide, by decide, by decide⟩
  simp [location_matches]

/-- Claim C4 (counterexample): with an empty skills string the single empty
token is a substring of every internship skills text, so the normalized
boost is `1`, not `0`. -/
theorem C4_counterexample :
    normalized_boost [] "python, sql".data = 1 ∧
    ¬ normalized_boost [] "python, sql".data = 0 := by
  have h := normalized_boost_empty_skills "python, sql".data
  exact ⟨h, by rw [h]; norm_num⟩

/-- Claim C4 (amended): the normalized boost always lies in `[0, 1]` and is
`0` whenever none of the user's skill tokens occurs as a substring of the
lowercased internship skills text; but for the empty skills string it is `1`
for every internship, since splitting yields the single empty token. -/
theorem C4_amended_boost_bounds (skills internship_skills : PyStr) :
    (0 ≤ normalized_boost skills internship_skills ∧
     normalized_boost skills internship_skills ≤ 1) ∧
    ((∀ t ∈ user_explicit_skills skills, ¬ (t <:+: py_lower internship_skills)) →
      normalized_boost skills internship_skills = 0) ∧
    (skills = [] → normalized_boost skills internship_skills = 1) := by
  refine ⟨⟨normalized_boost_nonneg skills internship_skills,
           normalized_boost_le_one skills internship_skills⟩,
         normalized_boost_eq_zero skills internship_skills,
         fun h => ?_⟩
  subst h
  exact normalized_boost_empty_skills internship_skills

/-- With empty user skills, every candidate's final score is an affine,
strictly increasing function of its semantic score alone. -/
theorem final_score_empty_skills (sem_score : ℚ) (internship_skills : PyStr) :
    final_score sem_score [] internship_skills = 7/10 * sem_score + 3/10 := by
  rw [final_score, normalized_boost_empty_skills]
  ring

/-- Descending order on the raw semantic search hits. -/
def sem_ge (a b : ℚ × Internship) : Prop := b.1 ≤ a.1

instance : DecidableRel sem_ge :=
  fun a b => inferInstanceAs (Decidable (b.1 ≤ a.1))

/-- Stable descending sort of (semantic score, internship) pairs by the
semantic score alone. -/
def sort_by_sem_score (l : List (ℚ × Internship)) : List (ℚ × Internship) :=
  l.insertionSort sem_ge

/-- Claim C10: with an empty skills string, splitting on commas yields the
single empty token, which is a substring of every skills text, so every
candidate receives the same normalized boost (namely `1`); the final
descending sort order therefore coincides with the order by semantic
similarity alone. -/
theorem C10_empty_skills_semantic_order (pairs : List (ℚ × Internship)) :
    user_explicit_skills [] = [[]] ∧
    (∀ internship_skills : PyStr, normalized_boost [] internship_skills = 1) ∧
    sort_by_final_score
        (pairs.map (fun p => ⟨final_score p.1 [] p.2.Skills, p.2⟩)) =
      (sort_by_sem_score pairs).map
        (fun p => ⟨final_score p.1 [] p.2.Skills, p.2⟩) := by
  refine ⟨rfl, normalized_boost_empty_skills, ?_⟩
  rw [sort_by_final_score, sort_by_sem_score]
  refine (map_insertionSort_of_iff sem_ge score_ge
    (fun p => ⟨final_score p.1 [] p.2.Skills, p.2⟩) (fun a b => ?_) pairs).symm
  rw [score_ge, sem_ge]
  dsimp only
  rw [final_score_empty_skills, final_score_empty_skills]
  constructor
  · intro h
    nlinarith
  · intro h
    nlinarith

/-- A threshold filter is non-empty exactly when some list element clears
the 0.55 threshold. -/
theorem good_filter_ne_nil_iff (l : List ScoredCandidate) :
    l.filter (fun c => decide (MINIMUM_SCORE_THRESHOLD ≤ c.final_score)) ≠ [] ↔
      ∃ c ∈ l, (55:ℚ)/100 ≤ c.final_score := by
  rw [Ne, List.filter_eq_nil_iff]
  push_neg
  simp [MINIMUM_SCORE_THRESHOLD]

/-- Claim C1: the 0.55 threshold is applied to both lists, and in order:
any in-location candidate clearing it yields the top 5 thresholded
in-location candidates with the in-location message; else any global
candidate clearing it yields the top 3 thresholded global candidates with
the no-in-location-match message; else the top 3 global candidates are
returned regardless of threshold with the closest-available message.  When
the input lists are sorted descending, so is the returned slice. -/
theorem C1_selection_policy (location : PyStr)
    (in_location_recs global_recs : List ScoredCandidate) :
    ((∃ c ∈ in_location_recs, (55:ℚ)/100 ≤ c.final_score) →
       select_results location in_location_recs global_recs =
         ("Top matches in your preferred location: ".data ++ location,
          (in_location_recs.filter
            (fun c => decide ((55:ℚ)/100 ≤ c.final_score))).take 5)) ∧
    ((¬ ∃ c ∈ in_location_recs, (55:ℚ)/100 ≤ c.final_score) →
     (∃ c ∈ global_recs, (55:ℚ)/100 ≤ c.final_score) →
       select_results location in_location_recs global_recs =
         ("No ideal matches found in ".data ++ location
            ++ ". Here are the best matches from other locations:".data,
          (global_recs.filter
            (fun c => decide ((55:ℚ)/100 ≤ c.final_score))).take 3)) ∧
    ((¬ ∃ c ∈ in_location_recs, (55:ℚ)/100 ≤ c.final_score) →
     (¬ ∃ c ∈ global_recs, (55:ℚ)/100 ≤ c.final_score) →
       select_results location in_location_recs global_recs =
         ("No ideal matches were found anywhere. Here are the top 3 closest skill matches from all locations:".data,
          global_recs.take 3)) ∧
    (List.Sorted score_ge in_location_recs → List.Sorted score_ge global_recs →
      List.Sorted score_ge (select_results location in_location_recs global_recs).2) := by
  refine ⟨fun h1 => ?_, fun h1 h2 => ?_, fun h1 h2 => ?_, fun hs1 hs2 => ?_⟩
  · unfold select_results
    dsimp only
    rw [if_pos ((good_filter_ne_nil_iff in_location_recs).mpr h1)]
    rfl
  · unfold select_results
    dsimp only
    rw [if_neg (fun hc => h1 ((good_filter_ne_nil_iff in_location_recs).mp hc)),
      if_pos ((good_filter_ne_nil_iff global_recs).mpr h2)]
    rfl
  · unfold select_results
    dsimp only
    rw [if_neg (fun hc => h1 ((good_filter_ne_nil_iff in_location_recs).mp hc)),
      if_neg (fun hc => h2 ((good_filter_ne_nil_iff global_recs).mp hc))]
    rfl
  · unfold select_results
    dsimp only
    split_ifs with h1 h2
    · exact List.Pairwise.sublist (List.take_sublist _ _) (hs1.filter _)
    · exact List.Pairwise.sublist (List.take_sublist _ _) (hs2.filter _)
    · exact List.Pairwise.sublist (List.take_sublist _ _) hs2

/-- Claim C5: with non-empty valid parameters and a non-empty sorted global
candidate list (as any search over a non-empty corpus produces), the
endpoint returns an ok response whose recommendations list is non-empty,
whichever fallback tier fires. -/
theorem C5_nonempty_result (st : EngineState) (skills location interest : PyStr)
    (hs : skills ≠ []) (hl : location ≠ [])
    (in_location_recs global_recs : List ScoredCandidate)
    (hfind : find_recommendations st skills location interest =
      .ok (in_location_recs, global_recs))
    (hne : global_recs ≠ []) :
    ∃ message results,
      recommend_internships st skills location interest =
        Response.ok message results ∧ results ≠ [] := by
  unfold recommend_internships
  rw [if_neg (by simp [hs, hl]), hfind]
  dsimp only
  refine ⟨_, _, rfl, ?_⟩
  unfold select_results
  dsimp only
  split_ifs with h1 h2
  · simp [List.take_eq_nil_iff, h1]
  · simp [List.take_eq_nil_iff, h2, FALLBACK_COUNT]
  · simp [List.take_eq_nil_iff, hne, FALLBACK_COUNT]

/-- Claim C8: an empty (or missing, since missing parameters default to the
empty string) skills or location parameter yields the 400 client-error
response, for every engine state — so before any recommendation computation
— and that response is distinct from internal-error and ok responses. -/
theorem C8_param_guard (st : EngineState) (skills location interest : PyStr)
    (h : skills = [] ∨ location = []) :
    recommend_internships st skills location interest =
      Response.bad_request "Please provide both skills and location parameters.".data ∧
    (∀ st2 : EngineState, recommend_internships st2 skills location interest =
      recommend_internships st skills location interest) ∧
    (∀ e : PyStr,
      Response.bad_request "Please provide both skills and location parameters.".data ≠
        Response.server_error e) ∧
    (∀ (m : PyStr) (rs : List ScoredCandidate),
      Response.bad_request "Please provide both skills and location parameters.".data ≠
        Response.ok m rs) := by
  have hb : ∀ st2 : EngineState, recommend_internships st2 skills location interest =
      Response.bad_request "Please provide both skills and location parameters.".data :=
    fun st2 => by
      unfold recommend_internships
      rw [if_pos h]
  exact ⟨hb st, fun st2 => (hb st2).trans (hb st).symm,
    fun e h2 => Response.noConfusion h2, fun m rs h2 => Response.noConfusion h2⟩

/-! ### Concrete engine states for the witnesses -/

/-- A one-record corpus: the spec's reference scenario record. -/
def intern0 : Internship :=
  ⟨"1".data, "Data Intern".data, "remote".data, "python, sql".data,
   "analyze data".data⟩

/-- A loaded engine over the one-record corpus whose search returns the
single hit with similarity 0.9. -/
def st0 : EngineState where
  search := fun _ => [(9/10, 0)]
  index_to_id_map := fun i => if i = 0 then some "1".data else none
  all_internships_map := fun j => if j = "1".data then some intern0 else none

/-- The candidate `st0` hydrates for the query skills `"python"`. -/
def c0 : ScoredCandidate :=
  ⟨final_score (9/10) "python".data "python, sql".data, intern0⟩

/-- An engine whose index-to-ID map is stale: position 0 maps to an
identifier absent from the corpus store. -/
def st1 : EngineState where
  search := fun _ => [((1:ℚ)/2, 0)]
  index_to_id_map := fun i => if i = 0 then some "ghost".data else none
  all_internships_map := fun _ => none

/-- Witness for C1: tier 1 fires on a concrete in-location candidate
clearing the threshold. -/
theorem C1_witness :
    select_results "remote".data [c0] [c0] =
      ("Top matches in your preferred location: ".data ++ "remote".data,
       ([c0].filter (fun c => decide ((55:ℚ)/100 ≤ c.final_score))).take 5) :=
  (C1_selection_policy "remote".data [c0] [c0]).1
    ⟨c0, List.mem_singleton.mpr rfl, by
      simp +decide [c0, final_score, normalized_boost, user_explicit_skills,
        py_split_comma]
      norm_num⟩

/-- Witness for C4 (amended): concrete bounds, a concrete no-match boost of
0, and the concrete empty-skills boost of 1. -/
theorem C4_witness :
    (0 ≤ normalized_boost "zz".data "python".data ∧
     normalized_boost "zz".data "python".data ≤ 1) ∧
    normalized_boost "zz".data "python".data = 0 ∧
    normalized_boost [] "python".data = 1 :=
  ⟨(C4_amended_boost_bounds "zz".data "python".data).1,
   (C4_amended_boost_bounds "zz".data "python".data).2.1 (by decide),
   (C4_amended_boost_bounds [] "python".data).2.2 rfl⟩

/-- Witness for C5: the one-record corpus yields a non-empty ok response. -/
theorem C5_witness :
    ∃ message results,
      recommend_internships st0 "python".data "remote".data [] =
        Response.ok message results ∧ results ≠ [] :=
  C5_nonempty_result st0 "python".data "remote".data [] (by decide) (by decide)
    [c0] [c0] rfl (by simp)

/-- Witness for C7: the stale engine `st1` fails the query with an error. -/
theorem C7_witness :
    ∃ e, find_recommendations st1 "python".data "remote".data [] = .error e :=
  C7_stale_id_error st1 "python".data "remote".data [] ((1:ℚ)/2) 0 "ghost".data
    (List.mem_singleton.mpr rfl) (by decide) rfl rfl

/-- Witness for C8: a concrete empty skills parameter is rejected with the
400 response. -/
theorem C8_witness :
    recommend_internships st0 [] "remote".data [] =
      Response.bad_request "Please provide both skills and location parameters.".data :=
  (C8_param_guard st0 [] "remote".data [] (Or.inl rfl)).1

/-- Witness for C9 (amended): purity at a concrete tuple and engine state. -/
theorem C9_witness :
    recommend_internships st0 "a".data "b".data "c".data =
      recommend_internships st0 "a".data "b".data "c".data ∧
    cache_key "a".data "b".data "c".data = cache_key "a".data "b".data "c".data :=
  C9_amended_purity st0 "a".data "b".data "c".data "a".data "b".data "c".data
    rfl rfl rfl
